import Mathlib

/-!
Verification development for the chat-with-document repository.

The definitions below are shallow embeddings of the repository's Python
code: the chunker configuration and algorithm (`RecursiveCharacterTextSplitter`
as configured in `src/chatbot.py`), the ingestion pipeline of
`src/chatbot.py` (`DocumentChatbot.load_documents`, `process_documents`,
`create_vector_store`, `setup_chain`, `chat`), the API layer's chatbot
lifecycle (`src/api.py`: `upload_file`'s background task, `chat`,
`delete_document`, `initialize_chatbot`), the CLI variant (`chatbot.py`
at the repository root: `upload_document`, `setup_vectorstore`), and the
`DocumentManager.upload_document` helper (`src/document_manager.py`).

Text is modelled as `List Char`; external effectful collaborators
(embedding service, the Chroma persistence layer, the language model,
`shutil.copy2`) are modelled by explicit outcome parameters of type
`Except`/`Bool`, so every operation of the code becomes a total function
of its inputs plus the outcomes of the external calls it makes.
-/

/-! ## Chunker: RecursiveCharacterTextSplitter

`src/chatbot.py` constructs
`RecursiveCharacterTextSplitter(chunk_size=1000, chunk_overlap=200,
length_function=len, separators=["\n\n", "\n", " ", ""])`.
The langchain splitter (with its defaults `keep_separator=True`,
`is_separator_regex=False`, so all separators are matched literally) is
translated below: separator selection, literal splitting with the
separator kept attached to the following piece, the greedy merge with
overlap, and the recursion over the remaining separator list.
-/

/-- `hasStart sep text` holds when `text` starts with `sep`. -/
def hasStart : List Char → List Char → Bool
  | [], _ => true
  | _ :: _, [] => false
  | a :: as, b :: bs => a == b && hasStart as bs

/-- `containsSub sep text`: literal substring occurrence, the model of
`re.search(re.escape(sep), text)` for a literal separator. -/
def containsSub (sep : List Char) : List Char → Bool
  | [] => sep.isEmpty
  | c :: rest => hasStart sep (c :: rest) || containsSub sep rest

/-- Worker for `splitBySub`, structurally recursive on a fuel counter so
that the kernel can evaluate it; every step consumes at least one
character, so fuel `text.length` never runs out. -/
def splitBySubF (s : Char) (ss : List Char) : Nat → List Char → List (List Char)
  | _, [] => [[]]
  | 0, _ :: _ => [[]]
  | fuel + 1, c :: rest =>
    if hasStart (s :: ss) (c :: rest) then
      [] :: splitBySubF s ss fuel (List.drop ss.length rest)
    else
      match splitBySubF s ss fuel rest with
      | [] => [[c]]
      | p :: ps => (c :: p) :: ps

/-- Split `text` at each non-overlapping occurrence of the (non-empty)
separator `s :: ss`, scanning left to right; the pieces between
occurrences are returned in order (`re.split` on an escaped separator). -/
def splitBySub (s : Char) (ss : List Char) (text : List Char) : List (List Char) :=
  splitBySubF s ss text.length text

/-- `_split_text_with_regex(text, sep, keep_separator=True)`: split on the
separator, reattach each separator occurrence to the piece that follows
it, and drop empty pieces.  An empty separator yields the character list
(`list(text)`). -/
def splitWithSep (sep : List Char) (text : List Char) : List (List Char) :=
  match sep with
  | [] => (text.map fun c => [c]).filter fun p => !p.isEmpty
  | s :: ss =>
    match splitBySub s ss text with
    | [] => []
    | p :: ps => (p :: ps.map fun q => (s :: ss) ++ q).filter fun q => !q.isEmpty

/-- Separator selection loop of `_split_text`: take the first separator
that is empty or occurs in the text (remembering the remaining
separators); default to the last separator when none matches. -/
def chooseSep (text last : List Char) : List (List Char) → List Char × List (List Char)
  | [] => (last, [])
  | s :: rest =>
    if s.isEmpty then (s, [])
    else if containsSub s text then (s, rest)
    else chooseSep text last rest

/-- Python `str.strip()` on the model's whitespace predicate. -/
def stripChars (l : List Char) : List Char :=
  ((l.dropWhile Char.isWhitespace).reverse.dropWhile Char.isWhitespace).reverse

/-- `_join_docs`: separator-join the pieces, strip, and return `none` for
an empty result. -/
def joinDocs (sep : List Char) (docs : List (List Char)) : Option (List Char) :=
  let text := stripChars (List.intercalate sep docs)
  if text.isEmpty then none else some text

/-- The `while` loop of `_merge_splits` that pops pieces from the front of
`current_doc` until the running total is within the overlap budget and the
next piece fits. -/
def popOverlap (chunkSize chunkOverlap sepLen dLen : Nat) :
    List (List Char) → Nat → List (List Char) × Nat
  | [], total => ([], total)
  | d :: rest, total =>
    if total > chunkOverlap ∨ (total + dLen + sepLen > chunkSize ∧ 0 < total) then
      popOverlap chunkSize chunkOverlap sepLen dLen rest
        (total - (d.length + if rest.isEmpty then 0 else sepLen))
    else (d :: rest, total)

/-- One iteration of the `for d in splits` loop of `_merge_splits`. -/
def mergeStep (chunkSize chunkOverlap : Nat) (sep : List Char)
    (st : List (List Char) × List (List Char) × Nat) (d : List Char) :
    List (List Char) × List (List Char) × Nat :=
  let docs := st.1
  let current := st.2.1
  let total := st.2.2
  let sepLen := sep.length
  let dLen := d.length
  let next :=
    if total + dLen + (if current.isEmpty then 0 else sepLen) > chunkSize then
      if current.isEmpty then (docs, current, total)
      else
        let docs' :=
          match joinDocs sep current with
          | some doc => docs ++ [doc]
          | none => docs
        let pop := popOverlap chunkSize chunkOverlap sepLen dLen current total
        (docs', pop.1, pop.2)
    else (docs, current, total)
  let current' := next.2.1 ++ [d]
  (next.1, current', next.2.2 + dLen + (if current'.length > 1 then sepLen else 0))

/-- `_merge_splits(splits, separator)`: greedily pack pieces into chunks of
at most `chunk_size` characters, keeping an overlap of up to
`chunk_overlap` characters between adjacent chunks. -/
def mergeSplits (chunkSize chunkOverlap : Nat) (sep : List Char)
    (splits : List (List Char)) : List (List Char) :=
  let st := splits.foldl (mergeStep chunkSize chunkOverlap sep) ([], [], 0)
  match joinDocs sep st.2.1 with
  | some doc => st.1 ++ [doc]
  | none => st.1

/-- One iteration of the `for s in splits` loop of `_split_text`: short
pieces accumulate; an oversized piece flushes the accumulated run through
`_merge_splits` and is handled by `handleBig` (kept whole, or split
recursively with the remaining separators). -/
def processStep (chunkSize chunkOverlap : Nat) (sep : List Char)
    (handleBig : List Char → List (List Char))
    (st : List (List Char) × List (List Char)) (s : List Char) :
    List (List Char) × List (List Char) :=
  if s.length < chunkSize then (st.1, st.2 ++ [s])
  else
    let flushed :=
      if st.2.isEmpty then st.1
      else st.1 ++ mergeSplits chunkSize chunkOverlap sep st.2
    (flushed ++ handleBig s, [])

/-- The split loop of `_split_text`, including the final flush. -/
def processSplits (chunkSize chunkOverlap : Nat) (sep : List Char)
    (handleBig : List Char → List (List Char)) (splits : List (List Char)) :
    List (List Char) :=
  let st := splits.foldl (processStep chunkSize chunkOverlap sep handleBig) ([], [])
  if st.2.isEmpty then st.1
  else st.1 ++ mergeSplits chunkSize chunkOverlap sep st.2

/-- `_split_text(text, separators)`.  With `keep_separator=True` the merge
separator is the empty string, which is what `processSplits` receives.
Structurally recursive on a fuel counter so the kernel can evaluate it:
`chooseSep` hands the recursion a strict suffix of the separator list, so
fuel `separators.length` never runs out. -/
def splitTextRecF (chunkSize chunkOverlap : Nat) :
    Nat → List (List Char) → List Char → List (List Char)
  | fuel, seps, text =>
    match fuel, (chooseSep text (seps.getLastD []) seps).2 with
    | _, [] =>
      processSplits chunkSize chunkOverlap [] (fun s => [s])
        (splitWithSep (chooseSep text (seps.getLastD []) seps).1 text)
    | 0, _ :: _ =>
      processSplits chunkSize chunkOverlap [] (fun s => [s])
        (splitWithSep (chooseSep text (seps.getLastD []) seps).1 text)
    | fuel' + 1, s1 :: srest =>
      processSplits chunkSize chunkOverlap []
        (fun s => splitTextRecF chunkSize chunkOverlap fuel' (s1 :: srest) s)
        (splitWithSep (chooseSep text (seps.getLastD []) seps).1 text)

/-- Splitter configuration: target chunk length, overlap length, ordered
boundary (separator) list. -/
structure SplitterConfig where
  chunkSize : Nat
  chunkOverlap : Nat
  separators : List (List Char)
deriving DecidableEq

/-- `split_text` of the configured splitter. -/
def splitText (cfg : SplitterConfig) (text : List Char) : List (List Char) :=
  splitTextRecF cfg.chunkSize cfg.chunkOverlap cfg.separators.length cfg.separators text

/-- The configuration fixed in `DocumentChatbot.__init__` of
`src/chatbot.py`: `chunk_size=1000, chunk_overlap=200,
separators=["\n\n", "\n", " ", ""]`. -/
def repoSplitterConfig : SplitterConfig :=
  { chunkSize := 1000
    chunkOverlap := 200
    separators := [['\n', '\n'], ['\n'], [' '], []] }

/-! ## Loader Registry and ingestion (`DocumentChatbot` of `src/chatbot.py`)

A source file is modelled by its name, its leading bytes, and the outcome
of the external extraction routine (`PDFMinerLoader.load()` /
`TextLoader.load()`): either an exception or the list of extracted text
units (one `page_content` per page). -/

instance {ε α : Type} [DecidableEq ε] [DecidableEq α] : DecidableEq (Except ε α) := fun x y =>
  match x, y with
  | .error a, .error b => decidable_of_iff (a = b) (by simp)
  | .error _, .ok _ => isFalse fun h => Except.noConfusion h
  | .ok _, .error _ => isFalse fun h => Except.noConfusion h
  | .ok a, .ok b => decidable_of_iff (a = b) (by simp)

structure SourceFile where
  filename : String
  header : List Nat
  extract : Except String (List (List Char))
deriving DecidableEq

/-- The `b'%PDF'` magic bytes checked by `load_documents`. -/
def pdfHeader : List Nat := [0x25, 0x50, 0x44, 0x46]

/-- Python's `str.endswith` (list-level suffix check, so the kernel can
evaluate it). -/
def endsWithStr (s suf : String) : Bool := hasStart suf.data.reverse s.data.reverse

/-- Per-file body of the `load_documents` loop: PDF files are rejected
when their first four bytes are not `%PDF` (before extraction is
consulted); an extraction exception skips the file; extracted PDF pages
with blank content are dropped; non-PDF files go through `TextLoader`
and an exception skips the file.  The result is the list of text units
this file contributes to the batch. -/
def loadFile (f : SourceFile) : List (List Char) :=
  if endsWithStr f.filename ".pdf" then
    if f.header.take 4 ≠ pdfHeader then []
    else
      match f.extract with
      | .error _ => []
      | .ok pages => pages.filter fun p => !(stripChars p).isEmpty
  else
    match f.extract with
    | .error _ => []
    | .ok pages => pages

/-- The document-collection phase of `load_documents`: every file of the
batch is processed, each contributing its `loadFile` result. -/
def collectDocs (files : List SourceFile) : List (List Char) :=
  files.flatMap loadFile

/-- `DocumentChatbot.load_documents`: after the loop, an empty collection
raises `ValueError("No documents could be loaded successfully")`. -/
def load_documents (files : List SourceFile) : Except String (List (List Char)) :=
  let docs := collectDocs files
  if docs.isEmpty then .error "No documents could be loaded successfully"
  else .ok docs

/-- `DocumentChatbot.process_documents`: blank documents are skipped, the
rest are chunked with the configured splitter; zero chunks across the
batch raises `ValueError("No text content could be extracted from documents")`. -/
def process_documents (docs : List (List Char)) : Except String (List (List Char)) :=
  let allTexts := docs.flatMap fun text =>
    if (stripChars text).isEmpty then [] else splitText repoSplitterConfig text
  if allTexts.isEmpty then .error "No text content could be extracted from documents"
  else .ok allTexts

/-! ## Vector Index -/

/-- Decimal digit to its character, as Python's `str(int)` renders it. -/
def digitChar (d : Nat) : Char := Char.ofNat (48 + d)

/-- Little-endian decimal digits, structurally recursive on a fuel
counter (`n / 10 < n` for positive `n`, so fuel `n` never runs out). -/
def natDigitsF : Nat → Nat → List Nat
  | _, 0 => []
  | 0, _ + 1 => []
  | fuel + 1, n + 1 => ((n + 1) % 10) :: natDigitsF fuel ((n + 1) / 10)

/-- Little-endian decimal digits of a natural number. -/
def natDigits (n : Nat) : List Nat := natDigitsF n n

/-- Decimal rendering of a natural number (`str(n)` for `n : int`).
`str(0) = "0"` is rendered as the empty digit list here; the code only
ever renders positive epoch timestamps, and injectivity on all of `Nat`
(proved below) is unaffected. -/
def natDecimal (n : Nat) : List Char := ((natDigits n).map digitChar).reverse

/-- `f"collection_{int(time.time())}"` for a timestamp already truncated
to whole seconds. -/
def mkCollectionName (seconds : Nat) : List Char :=
  "collection_".data ++ natDecimal seconds

/-- The collection identifier generated by a rebuild that happens at time
`ms` (milliseconds since the epoch): `int(time.time())` truncates the
float timestamp to whole seconds. -/
def collectionNameAt (ms : Nat) : List Char := mkCollectionName (ms / 1000)

/-- A built Vector Index: the generated collection identifier and the
persisted records (one per chunk; the embedding vectors live in the
external embedding service and are not part of the observable state). -/
structure VectorIndex where
  collectionName : List Char
  records : List (List Char)
deriving DecidableEq

/-- `DocumentChatbot.create_vector_store`: an empty chunk set raises
`ValueError("No texts to process")`; otherwise a fresh collection name is
generated and the external `Chroma.from_documents` + `persist` calls run
(outcome `chroma`); any exception is re-raised. -/
def create_vector_store (seconds : Nat) (chroma : Except String Unit)
    (texts : List (List Char)) : Except String VectorIndex :=
  if texts.isEmpty then .error "No texts to process"
  else
    match chroma with
    | .error e => .error e
    | .ok _ => .ok { collectionName := mkCollectionName seconds, records := texts }

/-- `VectorStore.create_vector_store` of `src/vector_store.py` (the unused
alternative wrapper): rejects an empty document list, then splits with the
default splitter configuration and builds a collection-nameless store. -/
def vectorStore_create_vector_store (documents : List (List Char)) :
    Except String (List (List Char)) :=
  if documents.isEmpty then .error "No documents provided"
  else .ok (documents.flatMap (splitText repoSplitterConfig))

/-! ## ChainBinding and the Retrieval-Augmented Chain -/

/-- The live binding built by `setup_chain`: the vector store wrapped by
the retriever (`search_kwargs={"k": 3}`), and the fresh
`ConversationBufferMemory` holding (question, answer) turns. -/
structure ChainBinding where
  vectorstore : VectorIndex
  memory : List (String × String)
  k : Nat
deriving DecidableEq

/-- `DocumentChatbot.setup_chain`: load all documents, chunk them, build a
vector store at time `seconds` (external persistence outcome `chroma`),
then construct the chain with a fresh (empty) memory and `k = 3`; any
failure is re-raised. -/
def setup_chain (seconds : Nat) (chroma : Except String Unit)
    (files : List SourceFile) : Except String ChainBinding :=
  match load_documents files with
  | .error e => .error e
  | .ok docs =>
    match process_documents docs with
    | .error e => .error e
    | .ok texts =>
      match create_vector_store seconds chroma texts with
      | .error e => .error e
      | .ok vs => .ok { vectorstore := vs, memory := [], k := 3 }

/-- The external work one `chain({...})` call performs: embed the
question, retrieve, invoke the language model over the retrieved chunks
and the conversation history, and parse the answer.  `respond` receives
the question and the current history and either fails (embedding,
retrieval or model invocation raised) or returns the answer text. -/
structure ChainOracle where
  respond : String → List (String × String) → Except String String

/-- The langchain `Chain.__call__` protocol run by
`ConversationalRetrievalChain`: the inner call runs first and
`memory.save_context((question, answer))` appends the turn only after it
returns successfully; an exception propagates with the memory untouched. -/
def runChain (oracle : ChainOracle) (b : ChainBinding) (q : String) :
    Except String String × ChainBinding :=
  match oracle.respond q b.memory with
  | .error e => (.error e, b)
  | .ok a => (.ok a, { b with memory := b.memory ++ [(q, a)] })

/-- `DocumentChatbot.chat`: without a bound chain, raise
`ValueError("Chat chain not initialized. Please upload some documents first.")`;
otherwise run the chain, re-raising any failure. -/
def chatbot_chat (oracle : ChainOracle) (chain : Option ChainBinding) (q : String) :
    Except String String × Option ChainBinding :=
  match chain with
  | none => (.error "Chat chain not initialized. Please upload some documents first.", none)
  | some b =>
    match runChain oracle b q with
    | (.error e, b') => (.error e, some b')
    | (.ok a, b') => (.ok a, some b')

/-! ## API layer (`src/api.py`)

The global `chatbot` is modelled by the binding it carries:
`none` stands for `chatbot is None` (a successfully constructed
`DocumentChatbot` always has a chain, since `__init__` calls
`setup_chain` and re-raises its failures).  HTTP outcomes are the three
shapes the chat/document endpoints produce. -/

inductive ApiResponse where
  | ok (body : String)
  | badRequest (detail : String)
  | serverError (detail : String)
deriving DecidableEq

/-- The detail string by which the API signals the recoverable
"not ready" condition, and which its handlers pattern-match in error
messages. -/
def uploadNotReadyDetail : String := "Please upload some documents first"

/-- Python's `needle in hay` on strings. -/
def strContains (needle hay : String) : Bool := containsSub needle.data hay.data

/-- `initialize_chatbot()` invoked while the global is `None`:
`DocumentChatbot()` runs a first `setup_chain` (time `t1`, persistence
outcome `c1`); on success the global becomes that instance, the documents
directory is re-checked, and `setup_chain` runs a second time (`t2`,
`c2`).  Result: the global binding after the call, and either the
returned value or the `HTTPException` the handler raises for a failure
whose message does not contain the "not ready" detail.  A failure of the
second `setup_chain` leaves the instance's chain from the first run in
place (`self.chain` is only reassigned at the end of a successful run). -/
def initialize_from_none (files : List SourceFile) (t1 t2 : Nat)
    (c1 c2 : Except String Unit) :
    Option ChainBinding × Except String (Option ChainBinding) :=
  match setup_chain t1 c1 files with
  | .error e => (none, if strContains uploadNotReadyDetail e then .ok none else .error e)
  | .ok b1 =>
    if files.isEmpty then (some b1, .ok none)
    else
      match setup_chain t2 c2 files with
      | .error e =>
        (some b1, if strContains uploadNotReadyDetail e then .ok none else .error e)
      | .ok b2 => (some b2, .ok (some b2))

/-- The `/chat` endpoint: an empty document set is rejected with a 400
carrying the "not ready" detail; a `None` global triggers
`chatbot = initialize_chatbot()` (whose return value replaces the
global); a global without a chain is rejected with the same 400; then
`chatbot.chat` runs and exceptions whose message contains the "not
ready" detail become that 400, all others a 500. -/
def api_chat (files : List SourceFile) (bot : Option ChainBinding)
    (t1 t2 : Nat) (c1 c2 : Except String Unit)
    (oracle : ChainOracle) (q : String) : ApiResponse × Option ChainBinding :=
  if files.isEmpty then (.badRequest uploadNotReadyDetail, bot)
  else
    match
      (match bot with
       | none => initialize_from_none files t1 t2 c1 c2
       | some b => (some b, .ok (some b))) with
    | (g, .error e) => (.serverError e, g)
    | (_, .ok none) => (.badRequest uploadNotReadyDetail, none)
    | (_, .ok (some b)) =>
      match chatbot_chat oracle (some b) q with
      | (.error e, b') =>
        if strContains uploadNotReadyDetail e then (.badRequest uploadNotReadyDetail, b')
        else (.serverError e, b')
      | (.ok a, b') => (.ok a, b')

/-- The deletion loop of `delete_document`: remove the first file of the
directory listing whose `os.remove` succeeds (`removeOk`), returning it
and the remaining listing.  The requested identifier plays no part. -/
def removeFirst (removeOk : SourceFile → Bool) :
    List SourceFile → Option (SourceFile × List SourceFile)
  | [] => none
  | f :: rest =>
    if removeOk f then some (f, rest)
    else
      match removeFirst removeOk rest with
      | none => none
      | some (g, l) => some (g, f :: l)

/-- The `/documents/{document_id}` DELETE endpoint: iterate the document
directory deleting the first deletable file; if one was deleted, set the
global chatbot to `None` and, only if files remain, call
`initialize_chatbot()` (return value discarded — the global is whatever
that call left behind, and an `HTTPException` it raises is re-wrapped by
the endpoint's blanket handler into a 500).  With nothing deleted the
404 raised inside the `try` block is likewise caught by the blanket
`except Exception` and surfaces as a 500. -/
def delete_document (_documentId : String) (files : List SourceFile)
    (bot : Option ChainBinding) (removeOk : SourceFile → Bool)
    (t1 t2 : Nat) (c1 c2 : Except String Unit) :
    ApiResponse × List SourceFile × Option ChainBinding :=
  match removeFirst removeOk files with
  | none => (.serverError "404: Document not found", files, bot)
  | some (_, files') =>
    if files'.isEmpty then (.ok "Document deleted successfully", files', none)
    else
      match initialize_from_none files' t1 t2 c1 c2 with
      | (g, .error e) => (.serverError e, files', g)
      | (g, .ok _) => (.ok "Document deleted successfully", files', g)

/-- Saving the uploaded bytes under `documents/<filename>` overwrites any
file of the same name. -/
def upload_file_save (files : List SourceFile) (f : SourceFile) : List SourceFile :=
  (files.filter fun g => g.filename ≠ f.filename) ++ [f]

/-- The background task `init_chatbot` scheduled by `/upload`:
`chatbot = DocumentChatbot()` (whose `__init__` runs `setup_chain` once:
`t1`, `c1`) followed by an explicit `chatbot.setup_chain()` (`t2`, `c2`).
If the constructor raises, the assignment never happens and the global
keeps its prior value; if the second `setup_chain` raises, the global is
the new instance still carrying the constructor's chain.  On any failure
the task deletes the uploaded file.  Result: (global binding after the
task, whether the uploaded file was kept). -/
def upload_init_task (prior : Option ChainBinding) (files : List SourceFile)
    (t1 t2 : Nat) (c1 c2 : Except String Unit) :
    Option ChainBinding × Bool :=
  match setup_chain t1 c1 files with
  | .error _ => (prior, false)
  | .ok b1 =>
    match setup_chain t2 c2 files with
    | .error _ => (some b1, false)
    | .ok b2 => (some b2, true)

/-- The `/upload` endpoint followed by its background task (the
size-limit rejection happens before any state changes and is not
modelled): save the file, rebuild, and on rebuild failure delete the
saved file again.  Result: (document store, global binding, success). -/
def api_upload (files : List SourceFile) (prior : Option ChainBinding)
    (f : SourceFile) (t1 t2 : Nat) (c1 c2 : Except String Unit) :
    List SourceFile × Option ChainBinding × Bool :=
  let files' := upload_file_save files f
  let r := upload_init_task prior files' t1 t2 c1 c2
  (if r.2 then files' else files.filter fun g => g.filename ≠ f.filename, r.1, r.2)

/-! ## CLI variant (`chatbot.py` at the repository root)

This `DocumentChatbot` keeps `self.vectorstore` and the chain separate:
`setup_chain` wraps `self.vectorstore.as_retriever()` at chain-creation
time, and `upload_document` re-runs only `setup_vectorstore`. -/

/-- The extension dispatch of the CLI `setup_vectorstore`: `.pdf`,
`.txt`, `.docx` and `.csv` go to their loaders (whose outcome is the
file's `extract` field; a loader exception skips the file), anything
else is skipped as unsupported. -/
def cliLoadFile (f : SourceFile) : List (List Char) :=
  if endsWithStr f.filename ".pdf" ∨ endsWithStr f.filename ".txt" ∨
      endsWithStr f.filename ".docx" ∨ endsWithStr f.filename ".csv" then
    match f.extract with
    | .error _ => []
    | .ok pages => pages
  else []

structure CliBot where
  files : List SourceFile
  vectorstore : VectorIndex
  chainIndex : VectorIndex
  memory : List (String × String)
deriving DecidableEq

/-- CLI `setup_vectorstore`: load every supported file, and if anything
was loaded, replace `self.vectorstore` with a Chroma store (fixed default
collection, persist directory `"db"`) over the 1000/200 splits; with
nothing loaded the method returns leaving `self.vectorstore` as it was.
A `Chroma.from_documents` failure propagates. -/
def cli_setup_vectorstore (bot : CliBot) (chroma : Except String Unit) :
    Except String CliBot :=
  let docs := bot.files.flatMap cliLoadFile
  if docs.isEmpty then .ok bot
  else
    match chroma with
    | .error e => .error e
    | .ok _ =>
      .ok { bot with
            vectorstore :=
              { collectionName := "langchain".data
                records := docs.flatMap (splitText repoSplitterConfig) } }

/-- CLI `setup_chain`: the conversation chain captures the current
`self.vectorstore` in its retriever and installs a fresh memory. -/
def cli_setup_chain (bot : CliBot) : CliBot :=
  { bot with chainIndex := bot.vectorstore, memory := [] }

/-- CLI `__init__` over an initial document directory: `setup_vectorstore`
then `setup_chain` (the empty-directory case, where `self.vectorstore`
would never be assigned, is out of scope of the claims). -/
def cliInit (files : List SourceFile) (chroma : Except String Unit) :
    Except String CliBot :=
  match cli_setup_vectorstore ⟨files, ⟨[], []⟩, ⟨[], []⟩, []⟩ chroma with
  | .error e => .error e
  | .ok b => .ok (cli_setup_chain b)

/-- CLI `upload_document`: copy the file into the documents directory and
re-run `setup_vectorstore`; `True` on success, any exception yields
`False`.  Neither branch touches the chain or its memory. -/
def cli_upload_document (bot : CliBot) (f : SourceFile)
    (copyOutcome : Except String Unit) (chroma : Except String Unit) :
    CliBot × Bool :=
  match copyOutcome with
  | .error _ => (bot, false)
  | .ok _ =>
    let bot' := { bot with files := bot.files ++ [f] }
    match cli_setup_vectorstore bot' chroma with
    | .error _ => (bot', false)
    | .ok bot'' => (bot'', true)

/-! ## Document Store Manager helper (`src/document_manager.py`) -/

/-- `os.path.basename`. -/
def basename (p : String) : String := (p.splitOn "/").getLastD p

/-- `DocumentManager.upload_document`: `shutil.copy2` the file into the
managed directory (overwriting a same-named file), returning `True`;
any exception during the copy is caught and yields `False` with the
store untouched. -/
def documentManager_upload_document (store : List String)
    (copyOutcome : Except String Unit) (filePath : String) :
    Bool × List String :=
  match copyOutcome with
  | .error _ => (false, store)
  | .ok _ =>
    let name := basename filePath
    (true, if store.contains name then store else store ++ [name])

/-! ## Concrete data used by witnesses and counterexamples -/

/-- Content of a small text document A. -/
def cDocA : List Char := "Alpha fact one.".data

/-- Content of a small text document B. -/
def cDocB : List Char := "Beta fact two.".data

/-- A small well-formed text file. -/
def cFileA : SourceFile := { filename := "a.txt", header := [], extract := .ok [cDocA] }

/-- A second small well-formed text file. -/
def cFileB : SourceFile := { filename := "b.txt", header := [], extract := .ok [cDocB] }

/-- A PDF file whose first bytes are not `%PDF`. -/
def cBadPdf : SourceFile :=
  { filename := "x.pdf", header := [0, 0, 0, 0], extract := .ok [cDocA] }

/-- A well-formed chain binding standing for a previously active one. -/
def cBind0 : ChainBinding :=
  { vectorstore := { collectionName := mkCollectionName 1, records := [cDocA] }
    memory := [("old q", "old a")]
    k := 3 }

/-- The CLI chatbot state after `__init__` over the directory `[cFileA]`. -/
def cliBotA : CliBot :=
  { files := [cFileA]
    vectorstore := { collectionName := "langchain".data, records := [cDocA] }
    chainIndex := { collectionName := "langchain".data, records := [cDocA] }
    memory := [] }

/-- A deterministic oracle for the chain: it fails on the question
`"q3"` and otherwise answers by echoing the question. -/
def cOracle : ChainOracle := { respond := fun q _ => if q = "q3" then .error "llm down" else .ok q }

/-! # Theorems -/

theorem natDigitsF_eq_digits (fuel : Nat) :
    ∀ n, n ≤ fuel → natDigitsF fuel n = Nat.digits 10 n := by
  induction fuel with
  | zero =>
    intro n hn
    have : n = 0 := Nat.le_zero.mp hn
    subst this
    simp [natDigitsF]
  | succ fuel ih =>
    intro n hn
    match n with
    | 0 => simp [natDigitsF]
    | m + 1 =>
      have hdiv : (m + 1) / 10 < m + 1 := Nat.div_lt_self (Nat.succ_pos m) (by norm_num)
      rw [natDigitsF, ih ((m + 1) / 10) (by omega),
        Nat.digits_def' (by norm_num : 1 < 10) (Nat.succ_pos m)]

theorem natDigits_eq_digits (n : Nat) : natDigits n = Nat.digits 10 n :=
  natDigitsF_eq_digits n n (Nat.le_refl n)

theorem digitChar_inj_lt :
    ∀ a, a < 10 → ∀ b, b < 10 → digitChar a = digitChar b → a = b := by decide

theorem map_digitChar_inj :
    ∀ l1 l2 : List Nat, (∀ x ∈ l1, x < 10) → (∀ x ∈ l2, x < 10) →
      l1.map digitChar = l2.map digitChar → l1 = l2 := by
  intro l1
  induction l1 with
  | nil =>
    intro l2 _ _ h
    cases l2 with
    | nil => rfl
    | cons b bs => simp at h
  | cons a as ih =>
    intro l2 h1 h2 h
    cases l2 with
    | nil => simp at h
    | cons b bs =>
      simp only [List.map_cons, List.cons.injEq] at h
      have hab := digitChar_inj_lt a (h1 a (by simp)) b (h2 b (by simp)) h.1
      subst hab
      have := ih bs (fun x hx => h1 x (by simp [hx])) (fun x hx => h2 x (by simp [hx])) h.2
      rw [this]

theorem natDecimal_inj {m n : Nat} (h : natDecimal m = natDecimal n) : m = n := by
  unfold natDecimal at h
  have h1 := List.reverse_injective h
  rw [natDigits_eq_digits, natDigits_eq_digits] at h1
  have h2 := map_digitChar_inj _ _
    (fun x hx => Nat.digits_lt_base (by norm_num) hx)
    (fun x hx => Nat.digits_lt_base (by norm_num) hx) h1
  calc m = Nat.ofDigits 10 (Nat.digits 10 m) := (Nat.ofDigits_digits 10 m).symm
    _ = Nat.ofDigits 10 (Nat.digits 10 n) := by rw [h2]
    _ = n := Nat.ofDigits_digits 10 n

/-- C8: Chunking is deterministic: for every text, splitting it twice
with the same fixed configuration (target chunk length, overlap length,
ordered boundary list) yields identical chunk sequences. -/
theorem C8_chunking_deterministic (cfg1 cfg2 : SplitterConfig) (t1 t2 : List Char)
    (hcfg : cfg1 = cfg2) (htext : t1 = t2) :
    splitText cfg1 t1 = splitText cfg2 t2 := by
  subst hcfg
  subst htext
  rfl

/-- Witness for C8: two runs of the repository's splitter configuration
on the same concrete text agree, and the splitter actually computes a
chunk on that text. -/
theorem C8_chunking_deterministic_witness :
    repoSplitterConfig = repoSplitterConfig ∧
    splitText repoSplitterConfig "The sky is blue.".data
      = splitText repoSplitterConfig "The sky is blue.".data ∧
    splitText repoSplitterConfig "The sky is blue.".data = ["The sky is blue.".data] :=
  ⟨rfl, C8_chunking_deterministic _ _ _ _ rfl rfl, by decide⟩

/-- C9 counterexample: two distinct rebuild instants (5.2 s and 5.9 s
after the epoch) produce the same collection identifier, because
`int(time.time())` truncates to whole seconds — so identifiers of
distinct rebuilds are not always distinct. -/
theorem C9_counterexample :
    (5200 : Nat) ≠ 5900 ∧ collectionNameAt 5200 = collectionNameAt 5900 :=
  ⟨by decide, by decide⟩

/-- C9 amended: collection identifiers of two rebuilds are distinct
whenever the rebuilds fall in different whole seconds (rebuilds within
one second share an identifier). -/
theorem C9_amended_distinct_seconds (t1 t2 : Nat) (h : t1 / 1000 ≠ t2 / 1000) :
    collectionNameAt t1 ≠ collectionNameAt t2 := by
  intro he
  apply h
  unfold collectionNameAt mkCollectionName at he
  exact natDecimal_inj (List.append_cancel_left he)

/-- Witness for the amended C9 at concrete rebuild times in different
seconds. -/
theorem C9_amended_witness : collectionNameAt 5200 ≠ collectionNameAt 6100 :=
  C9_amended_distinct_seconds 5200 6100 (by decide)

/-- C10: `DocumentManager.upload_document` is total: it returns `True`
exactly when the copy succeeds, and any exception during the copy is
caught and turned into `False` with the store untouched — nothing
propagates to the caller. -/
theorem C10_manager_upload_total (store : List String) (e p : String) :
    documentManager_upload_document store (.error e) p = (false, store) ∧
    (documentManager_upload_document store (.ok ()) p).1 = true :=
  ⟨rfl, rfl⟩

/-- C3: the Vector Index build rejects an empty chunk set with the
`"No texts to process"` failure, and a successfully built index always
carries the given (necessarily non-empty) chunk set — an empty index is
never built.  The unused `VectorStore` wrapper likewise rejects an empty
input. -/
theorem C3_empty_chunk_set_rejected (seconds : Nat) (chroma : Except String Unit) :
    create_vector_store seconds chroma [] = .error "No texts to process" ∧
    (∀ (texts : List (List Char)) (idx : VectorIndex),
        create_vector_store seconds chroma texts = .ok idx →
        idx.records = texts ∧ texts ≠ []) ∧
    vectorStore_create_vector_store [] = .error "No documents provided" := by
  refine ⟨rfl, ?_, rfl⟩
  intro texts idx h
  cases texts with
  | nil => simp [create_vector_store] at h
  | cons t ts =>
    cases chroma with
    | error e => simp [create_vector_store] at h
    | ok u =>
      simp only [create_vector_store, List.isEmpty_cons, Bool.false_eq_true, if_false,
        Except.ok.injEq] at h
      exact ⟨by rw [← h], by simp⟩

/-- Witness for C3: the build fails on the empty chunk set and succeeds
on a one-chunk set, producing an index holding exactly that chunk. -/
theorem C3_witness :
    create_vector_store 0 (.ok ()) [] = .error "No texts to process" ∧
    ({ collectionName := mkCollectionName 0, records := [cDocA] } : VectorIndex).records
      = [cDocA] ∧
    [cDocA] ≠ ([] : List (List Char)) := by
  have h := (C3_empty_chunk_set_rejected 0 (.ok ())).2.1 [cDocA]
      { collectionName := mkCollectionName 0, records := [cDocA] } (by decide)
  exact ⟨(C3_empty_chunk_set_rejected 0 (.ok ())).1, h.1, h.2⟩

/-- C2: a query in a state where no Vector Index has ever been built is
answered with the distinct recoverable "not ready" condition: with an
empty document set `/chat` returns the 400 carrying
`uploadNotReadyDetail` (leaving the global untouched), the core
`DocumentChatbot.chat` without a chain fails with the distinguished
"not initialized" message, and a 400 "not ready" response is never equal
to a 500 internal failure. -/
theorem C2_query_not_ready (files : List SourceFile) (bot : Option ChainBinding)
    (t1 t2 : Nat) (c1 c2 : Except String Unit) (oracle : ChainOracle) (q : String)
    (hfiles : files = []) :
    api_chat files bot t1 t2 c1 c2 oracle q = (.badRequest uploadNotReadyDetail, bot) ∧
    chatbot_chat oracle none q
      = (.error "Chat chain not initialized. Please upload some documents first.", none) ∧
    (∀ d d' : String, ApiResponse.badRequest d ≠ ApiResponse.serverError d') := by
  subst hfiles
  exact ⟨rfl, rfl, fun d d' h => ApiResponse.noConfusion h⟩

/-- Witness for C2 on a concrete empty document set and query. -/
theorem C2_witness :
    api_chat [] none 0 0 (.ok ()) (.ok ()) cOracle "hello"
      = (.badRequest uploadNotReadyDetail, none) ∧
    chatbot_chat cOracle none "hello"
      = (.error "Chat chain not initialized. Please upload some documents first.", none) ∧
    ApiResponse.badRequest uploadNotReadyDetail ≠ ApiResponse.serverError "boom" := by
  have h := C2_query_not_ready [] none 0 0 (.ok ()) (.ok ()) cOracle "hello" rfl
  exact ⟨h.1, h.2.1, h.2.2 uploadNotReadyDetail "boom"⟩

/-- C6: a failed chain invocation leaves Conversation Memory exactly as
it was (no partial turn); and after two successful `answer` calls
followed by a failed third, the memory holds exactly the two successful
turns in call order. -/
theorem C6_failed_call_leaves_memory (oracle : ChainOracle) (b0 : ChainBinding)
    (q1 q2 q3 a1 a2 err : String)
    (hmem : b0.memory = [])
    (h1 : oracle.respond q1 [] = .ok a1)
    (h2 : oracle.respond q2 [(q1, a1)] = .ok a2)
    (h3 : oracle.respond q3 [(q1, a1), (q2, a2)] = .error err) :
    (∀ (orc : ChainOracle) (b : ChainBinding) (q e : String),
        (runChain orc b q).1 = .error e → (runChain orc b q).2 = b) ∧
    ((runChain oracle ((runChain oracle ((runChain oracle b0 q1).2) q2).2) q3).2).memory
      = [(q1, a1), (q2, a2)] := by
  constructor
  · intro orc b q e h
    unfold runChain at h ⊢
    cases horc : orc.respond q b.memory with
    | error e2 => rfl
    | ok a => rw [horc] at h; simp at h
  · have s1 : (runChain oracle b0 q1).2 = { b0 with memory := [(q1, a1)] } := by
      unfold runChain
      rw [hmem, h1]
      rfl
    rw [s1]
    have s2 : (runChain oracle { b0 with memory := [(q1, a1)] } q2).2
        = { b0 with memory := [(q1, a1), (q2, a2)] } := by
      unfold runChain
      simp only [h2]
      rfl
    rw [s2]
    unfold runChain
    simp only [h3]

/-- Witness for C6: a concrete oracle succeeding twice then failing. -/
theorem C6_witness :
    (({ respond := fun q _ => if q = "q3" then .error "llm down" else .ok q } : ChainOracle).respond
        "q1" [] = .ok "q1") ∧
    ((runChain { respond := fun q _ => if q = "q3" then .error "llm down" else .ok q }
        ((runChain { respond := fun q _ => if q = "q3" then .error "llm down" else .ok q }
          ((runChain { respond := fun q _ => if q = "q3" then .error "llm down" else .ok q }
            { vectorstore := { collectionName := [], records := [] }, memory := [], k := 3 }
            "q1").2) "q2").2) "q3").2).memory
      = [("q1", "q1"), ("q2", "q2")] := by
  have h := C6_failed_call_leaves_memory
    { respond := fun q _ => if q = "q3" then .error "llm down" else .ok q }
    { vectorstore := { collectionName := [], records := [] }, memory := [], k := 3 }
    "q1" "q2" "q3" "q1" "q2" "llm down" rfl (by decide) (by decide) (by decide)
  exact ⟨by decide, h.2⟩

/-- C7: a PDF whose leading bytes are not `%PDF` contributes nothing to
the batch no matter what extraction would have returned (the header check
runs before extraction); a PDF whose extraction raises is skipped; and
the batch's collected documents decompose file by file, so one bad file
never aborts the others. -/
theorem C7_bad_pdf_never_aborts_batch :
    (∀ (g : SourceFile) (e : Except String (List (List Char))),
        endsWithStr g.filename ".pdf" = true → g.header.take 4 ≠ pdfHeader →
        loadFile { g with extract := e } = []) ∧
    (∀ (g : SourceFile) (err : String),
        endsWithStr g.filename ".pdf" = true → g.extract = .error err → loadFile g = []) ∧
    (∀ (pre post : List SourceFile) (f : SourceFile),
        collectDocs (pre ++ f :: post) = collectDocs pre ++ loadFile f ++ collectDocs post) := by
  refine ⟨?_, ?_, ?_⟩
  · intro g e h1 h2
    simp [loadFile, h1, h2]
  · intro g err h1 h2
    simp [loadFile, h1, h2]
  · intro pre post f
    simp [collectDocs, List.flatMap_append, List.flatMap_cons, List.append_assoc]

/-- Witness for C7: a concrete bad-header PDF is skipped whatever its
extraction outcome, a concrete failing PDF is skipped, and a batch
containing the bad PDF still collects the other files' documents. -/
theorem C7_witness :
    loadFile { cBadPdf with extract := .error "parse failure" } = [] ∧
    loadFile { filename := "y.pdf", header := [0x25, 0x50, 0x44, 0x46],
               extract := .error "extraction exception" } = [] ∧
    collectDocs ([cFileA] ++ cBadPdf :: [cFileB])
      = collectDocs [cFileA] ++ loadFile cBadPdf ++ collectDocs [cFileB] :=
  ⟨C7_bad_pdf_never_aborts_batch.1 cBadPdf (.error "parse failure") (by decide) (by decide),
   C7_bad_pdf_never_aborts_batch.2.1
     { filename := "y.pdf", header := [0x25, 0x50, 0x44, 0x46],
       extract := .error "extraction exception" } "extraction exception" (by decide) rfl,
   C7_bad_pdf_never_aborts_batch.2.2 [cFileA] [cFileB] cBadPdf⟩

/-- C1 counterexample: a remove-triggered rebuild is not atomic.  With
two documents on disk, an active prior binding and a rebuild whose index
construction fails, `delete_document` first discards the prior binding
(`chatbot = None`) and then fails the rebuild, leaving the system with no
usable chain instead of the prior binding. -/
theorem C1_counterexample :
    (delete_document "b.txt" [cFileA, cFileB] (some cBind0) (fun _ => true) 7 8
        (.error "embedding service failure") (.ok ())).2.2 = none ∧
    (delete_document "b.txt" [cFileA, cFileB] (some cBind0) (fun _ => true) 7 8
        (.error "embedding service failure") (.ok ())).1
      = .serverError "embedding service failure" ∧
    some cBind0 ≠ (none : Option ChainBinding) :=
  ⟨by decide, by decide, by decide⟩

/-- C1 amended: for add-triggered rebuilds the prior binding is replaced
only by a fully constructed new one — a constructor failure leaves the
prior binding, and the task always ends with the prior binding or some
constructed binding; for remove-triggered rebuilds the binding is
discarded before rebuilding, so a constructor failure (documents
remaining) leaves no active binding. -/
theorem C1_amended_rebuild_binding (prior : Option ChainBinding) (files : List SourceFile)
    (t1 t2 : Nat) (c1 c2 : Except String Unit)
    (docId : String) (dfiles : List SourceFile) (bot : Option ChainBinding)
    (removeOk : SourceFile → Bool) :
    ((setup_chain t1 c1 files).isOk = false →
        upload_init_task prior files t1 t2 c1 c2 = (prior, false)) ∧
    ((upload_init_task prior files t1 t2 c1 c2).1 = prior ∨
        (upload_init_task prior files t1 t2 c1 c2).1.isSome = true) ∧
    (∀ (f : SourceFile) (dfiles' : List SourceFile) (e : String),
        removeFirst removeOk dfiles = some (f, dfiles') → dfiles' ≠ [] →
        setup_chain t1 c1 dfiles' = .error e →
        (delete_document docId dfiles bot removeOk t1 t2 c1 c2).2.2 = none) := by
  refine ⟨?_, ?_, ?_⟩
  · intro h
    unfold upload_init_task
    cases hs : setup_chain t1 c1 files with
    | error e => rfl
    | ok b => rw [hs] at h; simp [Except.isOk, Except.toBool] at h
  · unfold upload_init_task
    cases hs : setup_chain t1 c1 files with
    | error e => exact Or.inl rfl
    | ok b1 =>
      cases hs2 : setup_chain t2 c2 files with
      | error e => exact Or.inr rfl
      | ok b2 => exact Or.inr rfl
  · intro f dfiles' e hrm hne hsetup
    have hne' : dfiles'.isEmpty = false := by
      cases dfiles' with
      | nil => exact absurd rfl hne
      | cons x xs => rfl
    simp only [delete_document, hrm, hne', Bool.false_eq_true, if_false,
      initialize_from_none, hsetup]
    by_cases hc : strContains uploadNotReadyDetail e
    · simp [hc]
    · simp [hc]

/-- Witness for the amended C1: a failing add-rebuild keeps the prior
binding; an add-rebuild over one document ends with some binding; a
failing remove-rebuild with a document remaining ends with no binding. -/
theorem C1_amended_witness :
    upload_init_task (some cBind0) [] 0 0 (.ok ()) (.ok ()) = (some cBind0, false) ∧
    ((upload_init_task (some cBind0) [cFileA] 0 0 (.ok ()) (.ok ())).1 = some cBind0 ∨
      (upload_init_task (some cBind0) [cFileA] 0 0 (.ok ()) (.ok ())).1.isSome = true) ∧
    (delete_document "b.txt" [cFileA, cFileB] (some cBind0) (fun _ => true) 7 8
        (.error "embed down") (.ok ())).2.2 = none := by
  refine ⟨(C1_amended_rebuild_binding (some cBind0) [] 0 0 (.ok ()) (.ok ())
      "b.txt" [] none (fun _ => true)).1 (by decide),
    (C1_amended_rebuild_binding (some cBind0) [cFileA] 0 0 (.ok ()) (.ok ())
      "b.txt" [] none (fun _ => true)).2.1,
    (C1_amended_rebuild_binding (some cBind0) [cFileA] 7 8 (.error "embed down") (.ok ())
      "b.txt" [cFileA, cFileB] (some cBind0) (fun _ => true)).2.2
      cFileA [cFileB] "embed down" (by decide) (by decide) (by decide)⟩

/-- C4 (code-bug demonstration): `delete_document` ignores its
`document_id`.  Asked to delete the document identified as `"b.txt"` from
the store `[a.txt, b.txt]`, the code removes `a.txt` — the first file of
the directory listing — so the store that remains is `[b.txt]`, not the
`[a.txt]` the claim requires. -/
theorem C4_delete_ignores_identifier :
    (delete_document "b.txt" [cFileA, cFileB] (some cBind0) (fun _ => true) 3 4
        (.ok ()) (.ok ())).2.1 = [cFileB] ∧
    (delete_document "b.txt" [cFileA, cFileB] (some cBind0) (fun _ => true) 3 4
        (.ok ()) (.ok ())).2.1 ≠ [cFileA] :=
  ⟨by decide, by decide⟩

theorem loadFile_txt (g : SourceFile) (ts : List (List Char))
    (hpdf : endsWithStr g.filename ".pdf" = false) (hex : g.extract = .ok ts) :
    loadFile g = ts := by
  simp [loadFile, hpdf, hex]

theorem cli_setup_vectorstore_keeps_chain (bot : CliBot) (o : Except String Unit)
    (b' : CliBot) (h : cli_setup_vectorstore bot o = .ok b') :
    b'.chainIndex = bot.chainIndex ∧ b'.memory = bot.memory := by
  unfold cli_setup_vectorstore at h
  by_cases hd : (bot.files.flatMap cliLoadFile).isEmpty
  · simp only [hd, if_true] at h
    injection h with h'
    subst h'
    exact ⟨rfl, rfl⟩
  · simp only [Bool.not_eq_true] at hd
    simp only [hd, Bool.false_eq_true, if_false] at h
    cases o with
    | error e => exact Except.noConfusion h
    | ok u =>
      injection h with h'
      subst h'
      exact ⟨rfl, rfl⟩

theorem cli_upload_keeps_chain (bot : CliBot) (f : SourceFile) (o1 o2 : Except String Unit) :
    (cli_upload_document bot f o1 o2).1.chainIndex = bot.chainIndex ∧
    (cli_upload_document bot f o1 o2).1.memory = bot.memory := by
  cases o1 with
  | error e => exact ⟨rfl, rfl⟩
  | ok u =>
    have hdef : cli_upload_document bot f (.ok u) o2
        = match cli_setup_vectorstore { bot with files := bot.files ++ [f] } o2 with
          | .error _ => ({ bot with files := bot.files ++ [f] }, false)
          | .ok bot'' => (bot'', true) := rfl
    rw [hdef]
    cases hs : cli_setup_vectorstore { bot with files := bot.files ++ [f] } o2 with
    | error e => exact ⟨rfl, rfl⟩
    | ok b'' =>
      have hk := cli_setup_vectorstore_keeps_chain _ o2 b'' hs
      exact ⟨hk.1, hk.2⟩

theorem splits_pair_ne_nil (ta tb : List Char)
    (hsa : splitText repoSplitterConfig ta ≠ []) :
    (splitText repoSplitterConfig ta ++ splitText repoSplitterConfig tb).isEmpty = false := by
  cases hsp : splitText repoSplitterConfig ta with
  | nil => exact absurd hsp hsa
  | cons x xs => rfl

theorem setup_chain_one_txt (t : Nat) (A : SourceFile) (ta : List Char)
    (hApdf : endsWithStr A.filename ".pdf" = false) (hA : A.extract = .ok [ta])
    (hta : (stripChars ta).isEmpty = false)
    (hsa : splitText repoSplitterConfig ta ≠ []) :
    setup_chain t (.ok ()) [A]
      = .ok { vectorstore := { collectionName := mkCollectionName t
                               records := splitText repoSplitterConfig ta }
              memory := [], k := 3 } := by
  have hload : load_documents [A] = .ok [ta] := by
    simp [load_documents, collectDocs, loadFile_txt A [ta] hApdf hA]
  have hne : (splitText repoSplitterConfig ta).isEmpty = false := by
    cases hsp : splitText repoSplitterConfig ta with
    | nil => exact absurd hsp hsa
    | cons x xs => rfl
  have hta' : stripChars ta ≠ [] := by
    intro hz
    rw [hz] at hta
    simp at hta
  have hproc : process_documents [ta] = .ok (splitText repoSplitterConfig ta) := by
    simp [process_documents, hta', hsa]
  have hcreate : create_vector_store t (.ok ()) (splitText repoSplitterConfig ta)
      = .ok { collectionName := mkCollectionName t
              records := splitText repoSplitterConfig ta } := by
    simp [create_vector_store, hne]
  simp [setup_chain, hload, hproc, hcreate]

theorem setup_chain_two_txt (t : Nat) (A B : SourceFile) (ta tb : List Char)
    (hApdf : endsWithStr A.filename ".pdf" = false)
    (hBpdf : endsWithStr B.filename ".pdf" = false)
    (hA : A.extract = .ok [ta]) (hB : B.extract = .ok [tb])
    (hta : (stripChars ta).isEmpty = false) (htb : (stripChars tb).isEmpty = false)
    (hsa : splitText repoSplitterConfig ta ≠ []) :
    setup_chain t (.ok ()) [A, B]
      = .ok { vectorstore := { collectionName := mkCollectionName t
                               records := splitText repoSplitterConfig ta
                                          ++ splitText repoSplitterConfig tb }
              memory := [], k := 3 } := by
  have hload : load_documents [A, B] = .ok [ta, tb] := by
    simp [load_documents, collectDocs, loadFile_txt A [ta] hApdf hA,
      loadFile_txt B [tb] hBpdf hB]
  have hne := splits_pair_ne_nil ta tb hsa
  have hta' : stripChars ta ≠ [] := by
    intro hz
    rw [hz] at hta
    simp at hta
  have htb' : stripChars tb ≠ [] := by
    intro hz
    rw [hz] at htb
    simp at htb
  have hsum : splitText repoSplitterConfig ta ++ splitText repoSplitterConfig tb ≠ [] :=
    fun hz => hsa (List.append_eq_nil.mp hz).1
  have hproc : process_documents [ta, tb]
      = .ok (splitText repoSplitterConfig ta ++ splitText repoSplitterConfig tb) := by
    simp [process_documents, hta', htb', hsum]
  have hcreate : create_vector_store t (.ok ())
      (splitText repoSplitterConfig ta ++ splitText repoSplitterConfig tb)
      = .ok { collectionName := mkCollectionName t
              records := splitText repoSplitterConfig ta
                         ++ splitText repoSplitterConfig tb } := by
    simp [create_vector_store, hne]
  simp [setup_chain, hload, hproc, hcreate]

/-- C5 counterexample: the CLI `upload_document` performs no chain
rebuild.  Starting from a chatbot initialised over document A, a
successful `upload_document` of document B leaves the chain's retriever
bound to the old index object: the binding is physically unchanged, it
differs from the rebuilt `self.vectorstore`, and document B's content is
absent from the index the chain queries. -/
theorem C5_counterexample :
    cliInit [cFileA] (.ok ()) = .ok cliBotA ∧
    (cli_upload_document cliBotA cFileB (.ok ()) (.ok ())).2 = true ∧
    (cli_upload_document cliBotA cFileB (.ok ()) (.ok ())).1.chainIndex = cliBotA.chainIndex ∧
    (cli_upload_document cliBotA cFileB (.ok ()) (.ok ())).1.vectorstore ≠ cliBotA.chainIndex ∧
    cDocB ∉ (cli_upload_document cliBotA cFileB (.ok ()) (.ok ())).1.chainIndex.records :=
  ⟨by decide, by decide, by decide, by decide, by decide⟩

/-- C5 amended: in the API variant each add saves the file and the
background task constructs a fresh chatbot whose ChainBinding wraps an
index over every stored document, so after adding A then B the bound
index holds the chunks of both; in the CLI variant `upload_document`
rebuilds only `self.vectorstore`, never the ChainBinding (chain and
memory are untouched in every branch). -/
theorem C5_amended_add_rebuild (A B : SourceFile) (ta tb : List Char)
    (tA1 tA2 tB1 tB2 : Nat) (prior : Option ChainBinding)
    (hApdf : endsWithStr A.filename ".pdf" = false)
    (hBpdf : endsWithStr B.filename ".pdf" = false)
    (hA : A.extract = .ok [ta]) (hB : B.extract = .ok [tb])
    (hta : (stripChars ta).isEmpty = false) (htb : (stripChars tb).isEmpty = false)
    (hsa : splitText repoSplitterConfig ta ≠ [])
    (hname : A.filename ≠ B.filename) :
    (api_upload [] none A tA1 tA2 (.ok ()) (.ok ())).1 = [A] ∧
    (api_upload [A] prior B tB1 tB2 (.ok ()) (.ok ())).2.1
      = some { vectorstore := { collectionName := mkCollectionName tB2
                                records := splitText repoSplitterConfig ta
                                           ++ splitText repoSplitterConfig tb }
               memory := [], k := 3 } ∧
    (∀ (bot : CliBot) (f : SourceFile) (o1 o2 : Except String Unit),
        (cli_upload_document bot f o1 o2).1.chainIndex = bot.chainIndex ∧
        (cli_upload_document bot f o1 o2).1.memory = bot.memory) := by
  refine ⟨?_, ?_, ?_⟩
  · have h1 := setup_chain_one_txt tA1 A ta hApdf hA hta hsa
    have h2 := setup_chain_one_txt tA2 A ta hApdf hA hta hsa
    simp [api_upload, upload_file_save, upload_init_task, h1, h2]
  · have hsave : upload_file_save [A] B = [A, B] := by
      simp [upload_file_save, List.filter, hname]
    have h1 := setup_chain_two_txt tB1 A B ta tb hApdf hBpdf hA hB hta htb hsa
    have h2 := setup_chain_two_txt tB2 A B ta tb hApdf hBpdf hA hB hta htb hsa
    simp [api_upload, hsave, upload_init_task, h1, h2]
  · exact fun bot f o1 o2 => cli_upload_keeps_chain bot f o1 o2

/-- Witness for the amended C5 at two concrete text documents. -/
theorem C5_amended_witness :
    (api_upload [] none cFileA 1 2 (.ok ()) (.ok ())).1 = [cFileA] ∧
    (api_upload [cFileA] none cFileB 3 4 (.ok ()) (.ok ())).2.1
      = some { vectorstore := { collectionName := mkCollectionName 4
                                records := splitText repoSplitterConfig cDocA
                                           ++ splitText repoSplitterConfig cDocB }
               memory := [], k := 3 } ∧
    (cli_upload_document cliBotA cFileB (.ok ()) (.ok ())).1.chainIndex
      = cliBotA.chainIndex := by
  have h := C5_amended_add_rebuild cFileA cFileB cDocA cDocB 1 2 3 4 none
    (by decide) (by decide) rfl rfl (by decide) (by decide) (by decide) (by decide)
  exact ⟨h.1, h.2.1, (h.2.2 cliBotA cFileB (.ok ()) (.ok ())).1⟩
